import Mathlib

/-!
Verification of the process-execution core of `run-command.c`.

The definitions below are a shallow embedding of the C source: each `def`
carries a comment pointing at the lines of `run-command.c` it translates.
OS-level effects (pipe creation, fork, exec, waitpid, access, getenv) are
modelled by explicit oracle parameters; machine-level values (file
descriptors, pids) are `Int`, exit statuses and errno/signal numbers `Nat`.
-/

/-! ### errno and signal constants (POSIX/Linux values; only distinctness matters) -/

def ENOENT : Nat := 2
def EACCES : Nat := 13
def ENOTDIR : Nat := 20
def SIGINT : Nat := 2
def SIGQUIT : Nat := 3
def SIGTERM : Nat := 15

/-! ### Child registry: `children_to_clean` (run-command.c lines 24-80)

The registry is a singly-linked list of pids; `mark_child_for_cleanup`
pushes at the head (lines 53-58), `clear_child_for_cleanup` unlinks the
first matching node (lines 67-80). -/

/-- run-command.c lines 53-58: prepend the pid to `children_to_clean`. -/
def mark_child_for_cleanup (pid : Int) (reg : List Int) : List Int :=
  pid :: reg

/-- run-command.c lines 67-80: walk the list and unlink the first node whose
pid matches; if none matches the list is unchanged. -/
def clear_child_for_cleanup (pid : Int) : List Int → List Int
  | [] => []
  | p :: rest => if p = pid then rest else p :: clear_child_for_cleanup pid rest

/-! ### Cleanup handlers (run-command.c lines 31-51) -/

/-- An observable action of the cleanup handlers: a `kill(pid, sig)` call or a
`raise(sig)` call. -/
inductive Event
  | kill (pid : Int) (sig : Nat)
  | raised (sig : Nat)
deriving DecidableEq, Repr

/-- run-command.c lines 31-39: pop each registry node in turn and
`kill(p->pid, sig)` it; the loop ends with `children_to_clean == NULL`. -/
def cleanup_children (sig : Nat) : List Int → List Event
  | [] => []
  | p :: rest => Event.kill p sig :: cleanup_children sig rest

/-- Modelled from the spec: `sigchain_pop` lives in sigchain.c, which is not
among the sources here.  Per the spec (section 4.3), it restores the
previously-installed handler for the signal; with the handler stack
represented head-first, that is popping the top element. -/
def sigchain_pop (handlers : List String) : List String :=
  handlers.tail

/-- run-command.c lines 41-46: empty the registry sending `sig` to each
entry, pop the signal handler, re-raise the signal.  Returns the emitted
events, the registry afterwards, and the handler stack afterwards. -/
def cleanup_children_on_signal (sig : Nat) (reg : List Int) (handlers : List String) :
    List Event × List Int × List String :=
  (cleanup_children sig reg ++ [Event.raised sig], [], sigchain_pop handlers)

/-- run-command.c lines 48-51: the atexit path empties the registry sending
`SIGTERM` to each entry. -/
def cleanup_children_on_exit (reg : List Int) : List Event × List Int :=
  (cleanup_children SIGTERM reg, [])

/-! ### PATH search and `sane_execvp` (run-command.c lines 100-162)

`getenv("PATH")` is the `pathEnv` parameter, `access(candidate, F_OK)` the
`ex` parameter. -/

/-- The `strchrnul(p, ':')` loop structure of `locate_in_PATH`: the
entries of a colon-separated string, trailing empty entry included. -/
def split_colon : List Char → List (List Char)
  | [] => [[]]
  | c :: rest =>
    if c = ':' then [] :: split_colon rest
    else
      match split_colon rest with
      | [] => [[c]]
      | g :: gs => (c :: g) :: gs

/-- run-command.c lines 100-130: walk the colon-separated `$PATH`; an empty
entry stands for the current directory (candidate is `file` itself),
otherwise the candidate is `dir ++ "/" ++ file`; return the first candidate
that exists. -/
def locate_in_PATH (pathEnv : Option String) (ex : String → Bool) (file : String) :
    Option String :=
  match pathEnv with
  | none => none
  | some p =>
    if p = "" then none
    else
      (split_colon p.toList).findSome? fun dir =>
        let cand := if dir.isEmpty then file else (dir ++ '/' :: file.toList).asString
        if ex cand then some cand else none

/-- run-command.c lines 132-137. -/
def exists_in_PATH (pathEnv : Option String) (ex : String → Bool) (file : String) : Bool :=
  (locate_in_PATH pathEnv ex file).isSome

/-- run-command.c lines 139-162: the errno normalization `sane_execvp`
performs after `execvp` fails with errno `e`.  `EACCES` on a slash-free name
becomes `ENOENT` unless the name exists somewhere on `$PATH`; `ENOTDIR` on a
slash-free name always becomes `ENOENT`. -/
def sane_execvp_errno (pathEnv : Option String) (ex : String → Bool)
    (file : String) (e : Nat) : Nat :=
  if e = EACCES ∧ file.toList.contains '/' = false then
    (if exists_in_PATH pathEnv ex file then EACCES else ENOENT)
  else if e = ENOTDIR ∧ file.toList.contains '/' = false then ENOENT
  else e

/-! ### Shell-command preparation (run-command.c lines 164-199) -/

/-- run-command.c line 177: the fixed set of shell-significant characters
tested by `strcspn`. -/
def shell_metachars : String := "|&;<>()$`\\\"\x27 \t\n*?[#~=%"

/-- run-command.c lines 164-199.  `none` models `die("BUG: shell command is
empty")`.  When `argv[0]` contains a shell-significant character the result
is `sh -c <arg0> <argv...>` with `" \"$@\""` appended to `arg0` when more
arguments follow; otherwise the argument vector is copied unchanged. -/
def prepare_shell_cmd (argv : List String) : Option (List String) :=
  match argv with
  | [] => none
  | a0 :: rest =>
    if a0.toList.any (fun c => shell_metachars.toList.contains c) then
      some ("/bin/sh" :: "-c" ::
        (if rest.isEmpty then a0 else a0 ++ " \"$@\"") :: a0 :: rest)
    else
      some (a0 :: rest)

/-! ### The wait path: `wait_or_whine` (run-command.c lines 245-286) -/

/-- Outcome of the `waitpid` loop of lines 251-252, after `EINTR` retries. -/
inductive WaitResult
  | failed (errno : Nat)
  | wrongPid (other : Int)
  | signaled (sig : Nat)
  | exited (code : Nat)
  | confused
deriving DecidableEq, Repr

structure WaitOutput where
  code : Int
  failedErrno : Nat
  log : List String
  reg : List Int
deriving DecidableEq, Repr

/-- run-command.c lines 245-286: classify the wait outcome, then
unconditionally run `clear_child_for_cleanup(pid)` (line 282) and return
`code` with `errno = failed_errno`. -/
def wait_or_whine (pid : Int) (argv0 : String) (res : WaitResult) (reg : List Int) :
    WaitOutput :=
  let out : WaitOutput :=
    match res with
    | .failed e =>
        { code := -1, failedErrno := e,
          log := ["waitpid for " ++ argv0 ++ " failed"], reg := [] }
    | .wrongPid _ =>
        { code := -1, failedErrno := 0,
          log := ["waitpid is confused (" ++ argv0 ++ ")"], reg := [] }
    | .signaled s =>
        { code := (s : Int) + 128, failedErrno := 0,
          log := if s ≠ SIGINT ∧ s ≠ SIGQUIT
                 then [argv0 ++ " died of signal " ++ toString s] else [],
          reg := [] }
    | .exited c =>
        if c = 127 then
          { code := -1, failedErrno := ENOENT, log := [], reg := [] }
        else
          { code := (c : Int), failedErrno := 0, log := [], reg := [] }
    | .confused =>
        { code := -1, failedErrno := 0,
          log := ["waitpid is confused (" ++ argv0 ++ ")"], reg := [] }
  { out with reg := clear_child_for_cleanup pid reg }

/-! ### The launch request: `struct child_process`

Fields `argv/env/dir/in/out/err` plus the boolean flags of run-command.h;
`child_process_init` (lines 17-22) zeroes the structure, which the field
defaults reproduce.  The C field `in` is spelled `in_` (`in` is reserved in
Lean); the separate `args`/`env_array` argv-arrays are conflated with
`argv`/`env` — lines 295-298 make `argv`/`env` point at them anyway, so one
list per role captures the observable state. -/

structure child_process where
  argv : List String := []
  env : List String := []
  dir : Option String := none
  in_ : Int := 0
  out : Int := 0
  err : Int := 0
  no_stdin : Bool := false
  no_stdout : Bool := false
  no_stderr : Bool := false
  stdout_to_stderr : Bool := false
  git_cmd : Bool := false
  use_shell : Bool := false
  silent_exec_failure : Bool := false
  clean_on_exit : Bool := false
  pid : Int := 0
deriving DecidableEq, Repr

/-- run-command.c lines 82-86: `close_pair` closes `fd[0]` then `fd[1]`. -/
def close_pair (fd : Int × Int) : List Int := [fd.1, fd.2]

/-- What the child's exec attempt does: `ok res` means the exec succeeded and
the program later terminates with wait outcome `res`; `fail e` means the
exec call failed with errno `e`. -/
inductive ExecOutcome
  | ok (res : WaitResult)
  | fail (errno : Nat)
deriving DecidableEq, Repr

/-- OS oracle for one `start_command` call: the results of successive
`pipe()` calls in order (`none` = failure), the errno a failing `pipe()`
sets, the result of `fork()` (`none` = failure with `forkErrno`), and the
child's exec outcome. -/
structure StartWorld where
  pipes : List (Option (Int × Int)) := []
  pipeErrno : Nat := 0
  forkPid : Option Int := none
  forkErrno : Nat := 0
  exec : ExecOutcome := ExecOutcome.fail ENOENT
deriving DecidableEq, Repr

/-- run-command.c lines 435-442: on exec failure with `ENOENT` the child
runs `_exit(127)`, which does NOT run the `atexit`-registered
`notify_parent` (line 384), so no byte reaches the notification pipe; any
other errno goes through `die_errno` → `die_child` (lines 226-230), whose
`exit(128)` does run `notify_parent`.  On exec success the close-on-exec
write end is closed by the kernel and no byte is sent. -/
def child_notifies : ExecOutcome → Bool
  | .ok _ => false
  | .fail e => !(e == ENOENT)

/-- The status `waitpid` eventually reports for the child: the program's own
termination if the exec succeeded, `_exit(127)` for an `ENOENT` exec
failure, `die_child`'s `exit(128)` otherwise (lines 226-230, 435-442). -/
def exec_wait_result : ExecOutcome → WaitResult
  | .ok r => r
  | .fail e => if e = ENOENT then .exited 127 else .exited 128

structure PipeFail where
  stream : String
  closed : List Int
  errno : Nat
  cmd : child_process
deriving DecidableEq, Repr

structure PipePlan where
  cmd : child_process
  need_in : Bool
  need_out : Bool
  need_err : Bool
  fdin : Int × Int := (0, 0)
  fdout : Int × Int := (0, 0)
  fderr : Int × Int := (0, 0)
  rest : List (Option (Int × Int)) := []
deriving DecidableEq, Repr

/-- run-command.c lines 305-355: the pipe-planning phase of
`start_command`.  Streams are planned stdin, then stdout, then stderr; on a
`pipe()` failure the error names the offending stream and `closed` lists, in
call order, the descriptors the code closes before `fail_pipe` (pipes made
for earlier streams, or the caller-supplied `cmd->in`/`cmd->out`). -/
def planPipes (cmd : child_process) (pipes : List (Option (Int × Int))) (e : Nat) :
    Except PipeFail PipePlan :=
  let need_in := !cmd.no_stdin && decide (cmd.in_ < 0)
  let inRes : Option ((Int × Int) × List (Option (Int × Int))) :=
    if need_in then
      match pipes with
      | some fdin :: rest => some (fdin, rest)
      | _ => none
    else some ((0, 0), pipes)
  match inRes with
  | none =>
      -- lines 307-313: close(cmd->out) when cmd->out > 0
      .error { stream := "standard input",
               closed := if cmd.out > 0 then [cmd.out] else [],
               errno := e, cmd := cmd }
  | some (fdin, pipes1) =>
    let cmd1 := if need_in then { cmd with in_ := fdin.2 } else cmd
    let need_out := !cmd1.no_stdout && !cmd1.stdout_to_stderr && decide (cmd1.out < 0)
    let outRes : Option ((Int × Int) × List (Option (Int × Int))) :=
      if need_out then
        match pipes1 with
        | some fdout :: rest => some (fdout, rest)
        | _ => none
      else some ((0, 0), pipes1)
    match outRes with
    | none =>
        -- lines 321-328: close_pair(fdin) or close(cmd->in)
        .error { stream := "standard output",
                 closed := (if need_in then close_pair fdin
                            else if cmd1.in_ ≠ 0 then [cmd1.in_] else []),
                 errno := e, cmd := cmd1 }
    | some (fdout, pipes2) =>
      let cmd2 := if need_out then { cmd1 with out := fdout.1 } else cmd1
      let need_err := !cmd2.no_stderr && decide (cmd2.err < 0)
      let errRes : Option ((Int × Int) × List (Option (Int × Int))) :=
        if need_err then
          match pipes2 with
          | some fderr :: rest => some (fderr, rest)
          | _ => none
        else some ((0, 0), pipes2)
      match errRes with
      | none =>
          -- lines 335-345: stdin's pipe (or caller fd) first, then stdout's
          .error { stream := "standard error",
                   closed := (if need_in then close_pair fdin
                              else if cmd2.in_ ≠ 0 then [cmd2.in_] else []) ++
                             (if need_out then close_pair fdout
                              else if cmd2.out ≠ 0 then [cmd2.out] else []),
                   errno := e, cmd := cmd2 }
      | some (fderr, pipes3) =>
        let cmd3 := if need_err then { cmd2 with err := fderr.1 } else cmd2
        .ok { cmd := cmd3, need_in := need_in, need_out := need_out,
              need_err := need_err, fdin := fdin, fdout := fdout, fderr := fderr,
              rest := pipes3 }

/-- run-command.c lines 523-539: the descriptors the parent closes when
`cmd->pid < 0` after the fork stage (fork failure, or exec failure detected
through the notification pipe). -/
def close_fail_block (plan : PipePlan) (cmd : child_process) : List Int :=
  (if plan.need_in then close_pair plan.fdin
   else if cmd.in_ ≠ 0 then [cmd.in_] else []) ++
  (if plan.need_out then close_pair plan.fdout
   else if cmd.out ≠ 0 then [cmd.out] else []) ++
  (if plan.need_err then close_pair plan.fderr
   else if cmd.err ≠ 0 then [cmd.err] else [])

/-- run-command.c lines 542-555: on success the parent closes the
child-side end of each created pipe, or the caller-supplied descriptor. -/
def close_success_block (plan : PipePlan) (cmd : child_process) : List Int :=
  (if plan.need_in then [plan.fdin.1]
   else if cmd.in_ ≠ 0 then [cmd.in_] else []) ++
  (if plan.need_out then [plan.fdout.2]
   else if cmd.out ≠ 0 then [cmd.out] else []) ++
  (if plan.need_err then [plan.fderr.2]
   else if cmd.err ≠ 0 then [cmd.err] else [])

/-- Everything a `start_command` call did that the parent can observe. -/
structure StartResult where
  ret : Int
  errno : Nat := 0
  cmd : child_process
  closed : List Int := []
  log : List String := []
  reg : List Int
  notifyRead : Nat := 0
  forked : Bool := false
deriving DecidableEq, Repr

/-- run-command.c lines 288-558 (the POSIX branch): plan the pipes, create
the notification pipe (lines 362-364, failure tolerated: both fds become
-1), fork, register the pid when `clean_on_exit` (lines 447-448), close the
notify write end and read at most one byte from it (lines 457-458); one byte
means the exec failed, in which case the child is reaped with
`wait_or_whine` and `cmd->pid` set to -1 (lines 458-466); a negative pid
then takes the cleanup block of lines 523-539, otherwise the success path
closes the child-side pipe ends or the caller-supplied descriptors (lines
542-555). -/
def start_command (cmd0 : child_process) (w : StartWorld) (reg : List Int) :
    StartResult :=
  match planPipes cmd0 w.pipes w.pipeErrno with
  | .error f =>
      { ret := -1, errno := f.errno, cmd := f.cmd, closed := f.closed,
        log := ["cannot create " ++ f.stream ++ " pipe for " ++ cmd0.argv.headD ""],
        reg := reg, notifyRead := 0, forked := false }
  | .ok plan =>
    let cmd := plan.cmd
    let notify : Int × Int := (plan.rest.headD none).getD (-1, -1)
    let notifyCreated := (plan.rest.headD none).isSome
    match w.forkPid with
    | none =>
        -- fork failed: line 444-446, then the pid < 0 block (523-539)
        { ret := -1, errno := w.forkErrno, cmd := { cmd with pid := -1 },
          closed := [notify.2, notify.1] ++ close_fail_block plan cmd,
          log := ["cannot fork() for " ++ cmd.argv.headD ""],
          reg := reg, notifyRead := 0, forked := false }
    | some pid =>
      let cmd := { cmd with pid := pid }
      let reg1 := if cmd.clean_on_exit then mark_child_for_cleanup pid reg else reg
      let byte := notifyCreated && child_notifies w.exec
      if byte then
        -- lines 458-466: the child signalled exec failure; reap it now
        let wo := wait_or_whine pid (cmd.argv.headD "") (exec_wait_result w.exec) reg1
        { ret := -1, errno := wo.failedErrno, cmd := { cmd with pid := -1 },
          closed := [notify.2, notify.1] ++ close_fail_block plan cmd,
          log := wo.log, reg := wo.reg, notifyRead := 1, forked := true }
      else
        -- success: lines 542-557
        { ret := 0, errno := 0, cmd := cmd,
          closed := [notify.2, notify.1] ++ close_success_block plan cmd,
          log := [], reg := reg1, notifyRead := 0, forked := true }

/-- run-command.c lines 560-566: `finish_command` is `wait_or_whine` on the
stored pid (the argv-array clears have no observable effect here). -/
def finish_command (cmd : child_process) (res : WaitResult) (reg : List Int) :
    WaitOutput :=
  wait_or_whine cmd.pid (cmd.argv.headD "") res reg

/-- run-command.c lines 568-574: `start_command`, and `finish_command` only
when the start succeeded.  Returns the resulting status and registry. -/
def run_command (cmd : child_process) (w : StartWorld) (reg : List Int) :
    Int × List Int :=
  let s := start_command cmd w reg
  if s.ret ≠ 0 then (s.ret, s.reg)
  else
    let f := finish_command s.cmd (exec_wait_result w.exec) s.reg
    (f.code, f.reg)

/-! ### Child-side stream redirection (run-command.c lines 386-416) -/

/-- Where a child standard stream ends up pointing after the `dup2` calls:
`/dev/null`, one of the parent's original standard streams, the child end of
a pipe created for this request, or a caller-supplied descriptor. -/
inductive Dest
  | null
  | parentStdin
  | parentStdout
  | parentStderr
  | pipeFd (n : Int)
  | callerFd (n : Int)
deriving DecidableEq, Repr

structure ChildStreams where
  fd0 : Dest
  fd1 : Dest
  fd2 : Dest
deriving DecidableEq, Repr

/-- run-command.c lines 386-416, executed in the child: stdin is redirected
first (386-394), then stderr (396-404), then stdout (406-416).  Because
stderr is settled before stdout, `stdout_to_stderr`'s `dup2(2, 1)` copies
the already-redirected stderr. -/
def child_streams (cmd : child_process) (need_in need_out need_err : Bool)
    (fdin fdout fderr : Int × Int) : ChildStreams :=
  let s : ChildStreams :=
    { fd0 := .parentStdin, fd1 := .parentStdout, fd2 := .parentStderr }
  let s := if cmd.no_stdin then { s with fd0 := .null }
           else if need_in then { s with fd0 := .pipeFd fdin.1 }
           else if cmd.in_ ≠ 0 then { s with fd0 := .callerFd cmd.in_ }
           else s
  let s := if cmd.no_stderr then { s with fd2 := .null }
           else if need_err then { s with fd2 := .pipeFd fderr.2 }
           else if cmd.err > 1 then { s with fd2 := .callerFd cmd.err }
           else s
  let s := if cmd.no_stdout then { s with fd1 := .null }
           else if cmd.stdout_to_stderr then { s with fd1 := s.fd2 }
           else if need_out then { s with fd1 := .pipeFd fdout.2 }
           else if cmd.out > 1 then { s with fd1 := .callerFd cmd.out }
           else s
  s

/-! ### Hooks (run-command.c lines 812-838)

`git_path("hooks/%s", name)` resolves under the repository directory
(`gitDir` parameter); `access(path, X_OK)` is the `xok` parameter. -/

/-- run-command.c lines 812-819. -/
def find_hook (gitDir : String) (xok : String → Bool) (name : String) :
    Option String :=
  let path := gitDir ++ "/hooks/" ++ name
  if xok path then some path else none

/-- run-command.c lines 823-835: the launch request `run_hook_ve` builds for
a located hook at `p`: argv `[p, args...]`, the caller's env, stdin
suppressed, stdout redirected into stderr. -/
def run_hook_cmd (p : String) (args : List String) (env : List String) :
    child_process :=
  { argv := p :: args, env := env, no_stdin := true, stdout_to_stderr := true }

/-- run-command.c lines 821-838: return 0 when the hook is absent or not
executable, else run the hook request through `run_command`. -/
def run_hook_ve (gitDir : String) (xok : String → Bool) (env : List String)
    (name : String) (args : List String) (w : StartWorld) (reg : List Int) : Int :=
  match find_hook gitDir xok name with
  | none => 0
  | some p => (run_command (run_hook_cmd p args env) w reg).1

/-! ## Helper lemmas -/

theorem clear_child_not_mem (pid : Int) (reg : List Int) (h : pid ∉ reg) :
    clear_child_for_cleanup pid reg = reg := by
  induction reg with
  | nil => rfl
  | cons p rest ih =>
    simp only [List.mem_cons, not_or] at h
    simp [clear_child_for_cleanup, Ne.symm h.1, ih h.2]

theorem clear_child_count (pid : Int) (reg : List Int) :
    List.count pid (clear_child_for_cleanup pid reg) = List.count pid reg - 1 := by
  induction reg with
  | nil => rfl
  | cons p rest ih =>
    by_cases hp : p = pid
    · subst hp
      simp [clear_child_for_cleanup, List.count_cons]
    · simp [clear_child_for_cleanup, hp, List.count_cons, Ne.symm hp, ih]

theorem clear_child_length (pid : Int) (reg : List Int) :
    reg.length - 1 ≤ (clear_child_for_cleanup pid reg).length ∧
      (clear_child_for_cleanup pid reg).length ≤ reg.length := by
  induction reg with
  | nil => simp [clear_child_for_cleanup]
  | cons p rest ih =>
    by_cases hp : p = pid
    · simp [clear_child_for_cleanup, hp]
    · simp [clear_child_for_cleanup, hp]
      omega

theorem clear_child_first_occurrence (pid : Int) (l1 l2 : List Int) (h : pid ∉ l1) :
    clear_child_for_cleanup pid (l1 ++ pid :: l2) = l1 ++ l2 := by
  induction l1 with
  | nil => simp [clear_child_for_cleanup]
  | cons p rest ih =>
    simp only [List.mem_cons, not_or] at h
    simp [clear_child_for_cleanup, Ne.symm h.1, ih h.2]

theorem clear_child_not_mem_of_count_le_one (pid : Int) (reg : List Int)
    (h : List.count pid reg ≤ 1) : pid ∉ clear_child_for_cleanup pid reg := by
  intro hmem
  have h1 := clear_child_count pid reg
  have h2 : 0 < List.count pid (clear_child_for_cleanup pid reg) :=
    List.count_pos_iff.mpr hmem
  omega

theorem cleanup_children_eq_map (sig : Nat) (reg : List Int) :
    cleanup_children sig reg = reg.map (fun p => Event.kill p sig) := by
  induction reg with
  | nil => rfl
  | cons p rest ih => simp [cleanup_children, ih]

/-! ## Claim theorems -/

/-- Claim C5: for every exec attempt failing with a name-lookup error on a
program name that contains no path separator, `sane_execvp` normalizes the
errno: `EACCES` becomes `ENOENT` unless the name exists somewhere on the
search path, and `ENOTDIR` always becomes `ENOENT`. -/
theorem c5_sane_execvp_normalizes_lookup_errors (pathEnv : Option String)
    (ex : String → Bool) (file : String) (h : file.toList.contains '/' = false) :
    (exists_in_PATH pathEnv ex file = false →
      sane_execvp_errno pathEnv ex file EACCES = ENOENT) ∧
    (exists_in_PATH pathEnv ex file = true →
      sane_execvp_errno pathEnv ex file EACCES = EACCES) ∧
    sane_execvp_errno pathEnv ex file ENOTDIR = ENOENT := by
  have h' : '/' ∉ file.data := by simpa [String.toList] using h
  refine ⟨fun hex => ?_, fun hex => ?_, ?_⟩
  · simp only [sane_execvp_errno]
    rw [if_pos ⟨trivial, h⟩, hex]
    simp
  · simp only [sane_execvp_errno]
    rw [if_pos ⟨trivial, h⟩, hex]
    simp
  · simp only [sane_execvp_errno]
    rw [if_neg, if_pos ⟨trivial, h⟩]
    intro hc
    exact absurd hc.1 (by decide)

/-- Witness for C5 at a concrete slash-free name with an empty oracle. -/
theorem c5_witness :
    sane_execvp_errno (some "/usr/bin") (fun _ => false) "frotz" EACCES = ENOENT ∧
    sane_execvp_errno (some "/usr/bin") (fun s => s == "/usr/bin/frotz") "frotz" EACCES
      = EACCES ∧
    sane_execvp_errno (some "/usr/bin") (fun _ => false) "frotz" ENOTDIR = ENOENT :=
  ⟨(c5_sane_execvp_normalizes_lookup_errors _ _ _ (by decide)).1 (by decide),
   (c5_sane_execvp_normalizes_lookup_errors _ _ _ (by decide)).2.1 (by decide),
   (c5_sane_execvp_normalizes_lookup_errors (some "/usr/bin") (fun _ => false) _
      (by decide)).2.2⟩

/-- Claim C6: a child that dies of signal `s` makes `finish_command` return
`128 + s`, and an error is logged exactly when the signal is neither
`SIGINT` nor `SIGQUIT`. -/
theorem c6_signal_death_status_and_log (cmd : child_process) (s : Nat)
    (reg : List Int) :
    (finish_command cmd (.signaled s) reg).code = (s : Int) + 128 ∧
    ((finish_command cmd (.signaled s) reg).log = [] ↔ s = SIGINT ∨ s = SIGQUIT) := by
  refine ⟨rfl, ?_⟩
  simp only [finish_command, wait_or_whine]
  split_ifs with hs
  · simp only [List.cons_ne_nil, false_iff, not_or]
    exact hs
  · rw [not_and_or, not_not, not_not] at hs
    simp [hs]

/-- Claim C7: `wait_or_whine` removes the pid from the registry whatever the
wait outcome was (normal exit, signal, wait failure, wrong pid, confusion);
when the pid was registered at most once it is gone afterwards. -/
theorem c7_registry_cleared_unconditionally (pid : Int) (argv0 : String)
    (res : WaitResult) (reg : List Int) :
    (wait_or_whine pid argv0 res reg).reg = clear_child_for_cleanup pid reg ∧
    (List.count pid reg ≤ 1 → pid ∉ (wait_or_whine pid argv0 res reg).reg) := by
  have hreg : (wait_or_whine pid argv0 res reg).reg = clear_child_for_cleanup pid reg :=
    rfl
  exact ⟨hreg, fun hc => hreg ▸ clear_child_not_mem_of_count_le_one pid reg hc⟩

/-- Witness for C7 on a registry holding the reaped pid once, with a failing
wait. -/
theorem c7_witness :
    (wait_or_whine 5 "prog" (.failed 10) [5, 9]).reg = clear_child_for_cleanup 5 [5, 9] ∧
    (5 : Int) ∉ (wait_or_whine 5 "prog" (.failed 10) [5, 9]).reg :=
  ⟨(c7_registry_cleared_unconditionally 5 "prog" (.failed 10) [5, 9]).1,
   (c7_registry_cleared_unconditionally 5 "prog" (.failed 10) [5, 9]).2 (by decide)⟩

/-- Claim C8: both cleanup paths send the delivered signal (`SIGTERM` on the
exit path) to every registered pid, in registry order, and leave the
registry empty; the signal path additionally pops the handler stack
(restoring the previously-installed handler) and ends by re-raising the
signal. -/
theorem c8_cleanup_signals_all_and_reraises (sig : Nat) (reg : List Int)
    (handlers : List String) :
    cleanup_children_on_exit reg = (reg.map (fun p => Event.kill p SIGTERM), []) ∧
    cleanup_children_on_signal sig reg handlers =
      (reg.map (fun p => Event.kill p sig) ++ [Event.raised sig], [],
        handlers.tail) := by
  exact ⟨by simp [cleanup_children_on_exit, cleanup_children_eq_map],
         by simp [cleanup_children_on_signal, sigchain_pop, cleanup_children_eq_map]⟩

/-- Claim C9: the shell wrapper is applied exactly when the first argument
contains one of the fixed shell-significant characters; in that case the
argument vector becomes `sh -c <arg0> <original argv...>` with `"$@"`
appended to `arg0` when further arguments follow, otherwise the argument
vector is left unchanged. -/
theorem c9_shell_wrapping_on_metachars (a0 : String) (rest : List String) :
    prepare_shell_cmd (a0 :: rest) =
      (if a0.toList.any (fun c => shell_metachars.toList.contains c) then
        some ("/bin/sh" :: "-c" ::
          (if rest.isEmpty then a0 else a0 ++ " \"$@\"") :: a0 :: rest)
      else some (a0 :: rest)) := rfl

/-- Claim C10 (amended): removal from the registry deletes at most one
entry, namely the most recently registered matching one (the first
occurrence, since registration prepends); removing an absent pid is the
identity; and a second removal is a no-op provided the pid was registered
at most once. -/
theorem c10_clear_child_properties (pid : Int) (reg : List Int) :
    clear_child_for_cleanup pid (mark_child_for_cleanup pid reg) = reg ∧
    (pid ∉ reg → clear_child_for_cleanup pid reg = reg) ∧
    (∀ l1 l2, pid ∉ l1 → reg = l1 ++ pid :: l2 →
      clear_child_for_cleanup pid reg = l1 ++ l2) ∧
    reg.length - 1 ≤ (clear_child_for_cleanup pid reg).length ∧
    (clear_child_for_cleanup pid reg).length ≤ reg.length ∧
    (List.count pid reg ≤ 1 →
      clear_child_for_cleanup pid (clear_child_for_cleanup pid reg) =
        clear_child_for_cleanup pid reg) := by
  refine ⟨by simp [mark_child_for_cleanup, clear_child_for_cleanup],
          clear_child_not_mem pid reg,
          fun l1 l2 h1 h2 => h2 ▸ clear_child_first_occurrence pid l1 l2 h1,
          (clear_child_length pid reg).1,
          (clear_child_length pid reg).2,
          fun hc => clear_child_not_mem
            pid _ (clear_child_not_mem_of_count_le_one pid reg hc)⟩

/-- Witness for C10 on the registry `[7, 5, 9]` and pid 5. -/
theorem c10_witness :
    clear_child_for_cleanup 5 (mark_child_for_cleanup 5 [7, 9]) = [7, 9] ∧
    clear_child_for_cleanup 5 [7, 9] = [7, 9] ∧
    clear_child_for_cleanup 5 [7, 5, 9] = [7, 9] ∧
    clear_child_for_cleanup 5 (clear_child_for_cleanup 5 [7, 5, 9]) =
      clear_child_for_cleanup 5 [7, 5, 9] :=
  ⟨(c10_clear_child_properties 5 [7, 9]).1,
   (c10_clear_child_properties 5 [7, 9]).2.1 (by decide),
   (c10_clear_child_properties 5 [7, 5, 9]).2.2.1 [7] [9] (by decide) rfl,
   (c10_clear_child_properties 5 [7, 5, 9]).2.2.2.2.2 (by decide)⟩

/-- Counterexample for C10 as stated: with pid 5 registered twice, the
second removal is not a no-op — it deletes the remaining entry. -/
theorem c10_counterexample :
    clear_child_for_cleanup 5 (clear_child_for_cleanup 5 [5, 5]) ≠
      clear_child_for_cleanup 5 [5, 5] := by decide

/-- Claim C1 (amended): with all three streams suppressed or inherited, a
successful launch followed immediately by finish on a program exiting
normally with code `n < 127` makes finish return exactly `n`.  (Exit code
127 is reserved for exec failure and is translated to -1.) -/
theorem c1_launch_finish_returns_exit_code (cmd : child_process) (w : StartWorld)
    (reg : List Int) (pid : Int) (n : Nat)
    (hin : cmd.no_stdin = true ∨ cmd.in_ = 0)
    (hout : cmd.no_stdout = true ∨ (cmd.stdout_to_stderr = false ∧ cmd.out = 0))
    (herr : cmd.no_stderr = true ∨ cmd.err = 0)
    (hfork : w.forkPid = some pid)
    (hexec : w.exec = .ok (.exited n))
    (hn : n < 127) :
    (start_command cmd w reg).ret = 0 ∧
    (finish_command (start_command cmd w reg).cmd (exec_wait_result w.exec)
        (start_command cmd w reg).reg).code = (n : Int) := by
  have hneedin : (!cmd.no_stdin && decide (cmd.in_ < 0)) = false := by
    rcases hin with h | h <;> simp [h]
  have hneedout : (!cmd.no_stdout && !cmd.stdout_to_stderr && decide (cmd.out < 0))
      = false := by
    rcases hout with h | ⟨h1, h2⟩ <;> simp [*]
  have hneederr : (!cmd.no_stderr && decide (cmd.err < 0)) = false := by
    rcases herr with h | h <;> simp [h]
  have hplan : planPipes cmd w.pipes w.pipeErrno = Except.ok
      { cmd := cmd, need_in := false, need_out := false, need_err := false,
        rest := w.pipes } := by
    simp [planPipes, hneedin, hneedout, hneederr]
  have hn' : ¬ n = 127 := by omega
  constructor
  · simp [start_command, hplan, hfork, hexec, child_notifies]
  · simp [start_command, hplan, hfork, hexec, child_notifies, finish_command,
      exec_wait_result, wait_or_whine, hn']

/-- Witness for C1: a suppress/inherit request whose program exits 3. -/
theorem c1_witness :
    (start_command { argv := ["true"], no_stdin := true }
        { forkPid := some 42, exec := .ok (.exited 3) } []).ret = 0 ∧
    (finish_command
        (start_command { argv := ["true"], no_stdin := true }
          { forkPid := some 42, exec := .ok (.exited 3) } []).cmd
        (exec_wait_result (StartWorld.mk [] 0 (some 42) 0 (.ok (.exited 3))).exec)
        (start_command { argv := ["true"], no_stdin := true }
          { forkPid := some 42, exec := .ok (.exited 3) } []).reg).code = (3 : Int) :=
  c1_launch_finish_returns_exit_code
    { argv := ["true"], no_stdin := true }
    { forkPid := some 42, exec := .ok (.exited 3) } [] 42 3
    (Or.inl rfl) (Or.inr ⟨rfl, rfl⟩) (Or.inr rfl) rfl rfl (by omega)

/-- Counterexample for C1 as stated: a program that exits with code 127
(allowed by the claim's range 0 ≤ N < 128) makes finish return -1, not 127,
because 127 is the reserved exec-failure status. -/
theorem c1_counterexample :
    (start_command { argv := ["prog"] }
        { forkPid := some 42, exec := .ok (.exited 127) } []).ret = 0 ∧
    (finish_command
        (start_command { argv := ["prog"] }
          { forkPid := some 42, exec := .ok (.exited 127) } []).cmd
        (.exited 127)
        (start_command { argv := ["prog"] }
          { forkPid := some 42, exec := .ok (.exited 127) } []).reg).code = -1 ∧
    ¬ (finish_command
        (start_command { argv := ["prog"] }
          { forkPid := some 42, exec := .ok (.exited 127) } []).cmd
        (.exited 127)
        (start_command { argv := ["prog"] }
          { forkPid := some 42, exec := .ok (.exited 127) } []).reg).code = 127 := by
  decide

/-- Claim C2, evaluated at the failing input: fork succeeds (pid 42, with
`clean_on_exit` set), the exec fails with `ENOENT`, yet no byte ever reaches
the notification pipe: the child's `_exit(127)` skips the atexit-registered
`notify_parent`, so `start_command` reads 0 bytes, returns success without
reaping anything, and leaves pid 42 registered. -/
theorem c2_exec_enoent_failure_goes_unnoticed :
    (start_command { argv := ["frotz"], clean_on_exit := true }
        { pipes := [some (3, 4)], forkPid := some 42, exec := .fail ENOENT } []).notifyRead
      = 0 ∧
    (start_command { argv := ["frotz"], clean_on_exit := true }
        { pipes := [some (3, 4)], forkPid := some 42, exec := .fail ENOENT } []).ret
      = 0 ∧
    (start_command { argv := ["frotz"], clean_on_exit := true }
        { pipes := [some (3, 4)], forkPid := some 42, exec := .fail ENOENT } []).reg
      = [42] := by
  decide

/-- Claim C3 (amended): when a pipe creation fails, `start_command` returns
-1 with an error naming the offending stream and no process is created;
before reporting it closes the pipes created for earlier-planned streams in
planning order (stdin's pipe before stdout's pipe) and the caller-supplied
stdin/stdout descriptor of a stream not being piped; a caller-supplied
stderr descriptor is never among the closed descriptors. -/
theorem c3_pipe_failure_cleanup :
    (∀ (cmd : child_process) (w : StartWorld) (reg : List Int)
        (rest : List (Option (Int × Int))),
      w.pipes = none :: rest → cmd.no_stdin = false → cmd.in_ < 0 →
      start_command cmd w reg =
        { ret := -1, errno := w.pipeErrno, cmd := cmd,
          closed := if cmd.out > 0 then [cmd.out] else [],
          log := ["cannot create standard input pipe for " ++ cmd.argv.headD ""],
          reg := reg, notifyRead := 0, forked := false }) ∧
    (∀ (cmd : child_process) (w : StartWorld) (reg : List Int) (i0 i1 : Int)
        (rest : List (Option (Int × Int))),
      w.pipes = some (i0, i1) :: none :: rest →
      cmd.no_stdin = false → cmd.in_ < 0 →
      cmd.no_stdout = false → cmd.stdout_to_stderr = false → cmd.out < 0 →
      start_command cmd w reg =
        { ret := -1, errno := w.pipeErrno, cmd := { cmd with in_ := i1 },
          closed := [i0, i1],
          log := ["cannot create standard output pipe for " ++ cmd.argv.headD ""],
          reg := reg, notifyRead := 0, forked := false }) ∧
    (∀ (cmd : child_process) (w : StartWorld) (reg : List Int) (i0 i1 o0 o1 : Int)
        (rest : List (Option (Int × Int))),
      w.pipes = some (i0, i1) :: some (o0, o1) :: none :: rest →
      cmd.no_stdin = false → cmd.in_ < 0 →
      cmd.no_stdout = false → cmd.stdout_to_stderr = false → cmd.out < 0 →
      cmd.no_stderr = false → cmd.err < 0 →
      start_command cmd w reg =
        { ret := -1, errno := w.pipeErrno, cmd := { cmd with in_ := i1, out := o0 },
          closed := [i0, i1, o0, o1],
          log := ["cannot create standard error pipe for " ++ cmd.argv.headD ""],
          reg := reg, notifyRead := 0, forked := false }) ∧
    (∀ (cmd : child_process) (w : StartWorld) (reg : List Int)
        (rest : List (Option (Int × Int))),
      w.pipes = none :: rest →
      cmd.no_stdin = false → cmd.in_ > 0 →
      cmd.no_stdout = false → cmd.stdout_to_stderr = false → cmd.out < 0 →
      start_command cmd w reg =
        { ret := -1, errno := w.pipeErrno, cmd := cmd,
          closed := [cmd.in_],
          log := ["cannot create standard output pipe for " ++ cmd.argv.headD ""],
          reg := reg, notifyRead := 0, forked := false }) := by
  refine ⟨?_, ?_, ?_, ?_⟩
  · intro cmd w reg rest hp h1 h2
    have d2 : decide (cmd.in_ < 0) = true := decide_eq_true h2
    simp [start_command, planPipes, hp, h1, d2]
  · intro cmd w reg i0 i1 rest hp h1 h2 h3 h4 h5
    have d2 : decide (cmd.in_ < 0) = true := decide_eq_true h2
    have d5 : decide (cmd.out < 0) = true := decide_eq_true h5
    simp [start_command, planPipes, hp, h1, d2, h3, h4, d5, close_pair]
  · intro cmd w reg i0 i1 o0 o1 rest hp h1 h2 h3 h4 h5 h6 h7
    have d2 : decide (cmd.in_ < 0) = true := decide_eq_true h2
    have d5 : decide (cmd.out < 0) = true := decide_eq_true h5
    have d7 : decide (cmd.err < 0) = true := decide_eq_true h7
    simp [start_command, planPipes, hp, h1, d2, h3, h4, d5, h6, d7, close_pair]
  · intro cmd w reg rest hp h1 h2 h3 h4 h5
    have d2 : decide (cmd.in_ < 0) = false := by
      simp
      omega
    have d5 : decide (cmd.out < 0) = true := decide_eq_true h5
    have h2' : ¬ cmd.in_ = 0 := by omega
    simp [start_command, planPipes, hp, h1, d2, h3, h4, d5, h2']

/-- Witness for C3: a stdin-pipe failure with a caller-supplied stdout
descriptor, and a stderr-pipe failure after both earlier pipes were made. -/
theorem c3_witness :
    start_command { argv := ["x"], in_ := -1, out := 8 }
        { pipes := [none], pipeErrno := 9 } [] =
      { ret := -1, errno := 9, cmd := { argv := ["x"], in_ := -1, out := 8 },
        closed := [8], log := ["cannot create standard input pipe for x"],
        reg := [], notifyRead := 0, forked := false } ∧
    start_command { argv := ["x"], in_ := -1, out := -1, err := -1 }
        { pipes := [some (3, 4), some (5, 6), none], pipeErrno := 24 } [] =
      { ret := -1, errno := 24,
        cmd := { argv := ["x"], in_ := 4, out := 5, err := -1 },
        closed := [3, 4, 5, 6],
        log := ["cannot create standard error pipe for x"],
        reg := [], notifyRead := 0, forked := false } :=
  ⟨c3_pipe_failure_cleanup.1 { argv := ["x"], in_ := -1, out := 8 }
      { pipes := [none], pipeErrno := 9 } [] [] rfl rfl (by decide),
   c3_pipe_failure_cleanup.2.2.1 { argv := ["x"], in_ := -1, out := -1, err := -1 }
      { pipes := [some (3, 4), some (5, 6), none], pipeErrno := 24 } [] 3 4 5 6 []
      rfl rfl (by decide) rfl rfl (by decide) rfl (by decide)⟩

/-- Counterexample for C3 as stated: on a stderr-pipe failure the code
closes stdin's pipe (descriptors 3, 4) before stdout's pipe (descriptors
5, 6) — planning order, not the claimed reverse planning order — and on a
stdin-pipe failure a caller-supplied stderr descriptor (7) is not closed at
all. -/
theorem c3_counterexample :
    (start_command { argv := ["x"], in_ := -1, out := -1, err := -1 }
        { pipes := [some (3, 4), some (5, 6), none], pipeErrno := 24 } []).closed
      = [3, 4, 5, 6] ∧
    ¬ ((start_command { argv := ["x"], in_ := -1, out := -1, err := -1 }
          { pipes := [some (3, 4), some (5, 6), none], pipeErrno := 24 } []).closed.indexOf
        (5 : Int) <
       (start_command { argv := ["x"], in_ := -1, out := -1, err := -1 }
          { pipes := [some (3, 4), some (5, 6), none], pipeErrno := 24 } []).closed.indexOf
        (3 : Int)) ∧
    (start_command { argv := ["x"], in_ := -1, err := 7 }
        { pipes := [none], pipeErrno := 24 } []).closed = [] ∧
    (7 : Int) ∉ (start_command { argv := ["x"], in_ := -1, err := 7 }
        { pipes := [none], pipeErrno := 24 } []).closed := by
  decide

/-- Claim C4 (amended): a missing or non-executable hook makes `run_hook`
return 0 without launching anything; a present hook is launched with argv
`[hook-path, args...]`, the caller's environment entries, stdin suppressed
and the hook's stdout merged into stderr (not stderr into stdout), and when
the launch succeeds `run_hook` returns `finish_command`'s result. -/
theorem c4_run_hook_behaviour :
    (∀ (gitDir : String) (xok : String → Bool) (env : List String) (name : String)
        (args : List String) (w : StartWorld) (reg : List Int),
      xok (gitDir ++ "/hooks/" ++ name) = false →
      run_hook_ve gitDir xok env name args w reg = 0) ∧
    (∀ (gitDir : String) (xok : String → Bool) (env : List String) (name : String)
        (args : List String) (w : StartWorld) (reg : List Int),
      xok (gitDir ++ "/hooks/" ++ name) = true →
      run_hook_ve gitDir xok env name args w reg =
        (run_command (run_hook_cmd (gitDir ++ "/hooks/" ++ name) args env) w reg).1) ∧
    (∀ (p : String) (args env : List String) (pipes : List (Option (Int × Int)))
        (e : Nat),
      (run_hook_cmd p args env).argv = p :: args ∧
      (run_hook_cmd p args env).env = env ∧
      (run_hook_cmd p args env).no_stdin = true ∧
      planPipes (run_hook_cmd p args env) pipes e =
        Except.ok { cmd := run_hook_cmd p args env, need_in := false,
                    need_out := false, need_err := false, rest := pipes } ∧
      child_streams (run_hook_cmd p args env) false false false (0, 0) (0, 0) (0, 0) =
        { fd0 := Dest.null, fd1 := Dest.parentStderr, fd2 := Dest.parentStderr }) ∧
    (∀ (gitDir : String) (xok : String → Bool) (env : List String) (name : String)
        (args : List String) (w : StartWorld) (reg : List Int),
      xok (gitDir ++ "/hooks/" ++ name) = true →
      (start_command (run_hook_cmd (gitDir ++ "/hooks/" ++ name) args env) w reg).ret
        = 0 →
      run_hook_ve gitDir xok env name args w reg =
        (finish_command
          (start_command (run_hook_cmd (gitDir ++ "/hooks/" ++ name) args env)
            w reg).cmd
          (exec_wait_result w.exec)
          (start_command (run_hook_cmd (gitDir ++ "/hooks/" ++ name) args env)
            w reg).reg).code) := by
  refine ⟨?_, ?_, ?_, ?_⟩
  · intro gitDir xok env name args w reg h
    simp [run_hook_ve, find_hook, h]
  · intro gitDir xok env name args w reg h
    simp [run_hook_ve, find_hook, h]
  · intro p args env pipes e
    exact ⟨rfl, rfl, rfl, rfl, rfl⟩
  · intro gitDir xok env name args w reg h hret
    simp [run_hook_ve, find_hook, h, run_command, hret]

/-- Witness for C4: an absent hook yields 0; a present hook that exits 3
yields 3, the result of finishing it. -/
theorem c4_witness :
    run_hook_ve "g" (fun _ => false) [] "pre-commit" [] { } [] = 0 ∧
    run_hook_ve "g" (fun _ => true) ["A=1"] "pre-commit" ["m"]
        { forkPid := some 9, exec := .ok (.exited 3) } [] =
      (run_command (run_hook_cmd ("g" ++ "/hooks/" ++ "pre-commit") ["m"] ["A=1"])
        { forkPid := some 9, exec := .ok (.exited 3) } []).1 :=
  ⟨c4_run_hook_behaviour.1 "g" (fun _ => false) [] "pre-commit" [] { } [] rfl,
   c4_run_hook_behaviour.2.1 "g" (fun _ => true) ["A=1"] "pre-commit" ["m"]
      { forkPid := some 9, exec := .ok (.exited 3) } [] rfl⟩

/-- Counterexample for C4 as stated: the hook request redirects the child's
stdout onto the parent's stderr and leaves the child's stderr untouched —
stdout is merged into stderr.  "Stderr merged into stdout" would require
the child's stderr to end up on the parent's stdout, which never happens. -/
theorem c4_counterexample :
    (child_streams (run_hook_cmd "g/hooks/pre-commit" [] []) false false false
        (0, 0) (0, 0) (0, 0)).fd1 = Dest.parentStderr ∧
    (child_streams (run_hook_cmd "g/hooks/pre-commit" [] []) false false false
        (0, 0) (0, 0) (0, 0)).fd2 = Dest.parentStderr ∧
    ¬ (child_streams (run_hook_cmd "g/hooks/pre-commit" [] []) false false false
        (0, 0) (0, 0) (0, 0)).fd2 = Dest.parentStdout := by
  decide
